import Mathlib

/-!
# Verification of the AI-calling session orchestrator

Shallow embedding of the core call-session logic of the repository:

* `utils/merge_text.py` — overlap-aware transcript merging (`add_text_with_overlap_check`,
  `_clean_text`);
* `handlers/websocket_manager.py` — the live WebSocket manager (`handle_websocket`'s
  mark handling, `_handle_deepgram_receiving`'s dispatch, `_replay_audio`,
  `_stream_elevenlabs_audio`'s final-message detection, the silence-threshold
  selection) and the unused alternative handler `_handle_client_messages`;
* `memory/memory_b.py` — `ConversationState` and the MemoryB operations;
* `handlers/conversation_manager.py` — `process_response` and `advance_state`.

Python strings are modelled as Lean `String`s (ASCII data in this code base), Python
float constants (silence thresholds, confidence thresholds) as rationals, byte buffers
by their length, and `asyncio` side effects (sleeps, task spawns, audio streaming) as
explicit action labels.  Wall-clock timestamps (`time.time()` bookkeeping) are not
modelled; within a single dispatch of the receive loop they do not influence which
branch is taken.
-/

namespace AICall

/-! ## String helpers mirroring the Python primitives -/

/-- Boolean "l₁ is a prefix of l₂" on character lists. -/
def isPrefixB : List Char → List Char → Bool
  | [], _ => true
  | _ :: _, [] => false
  | a :: as, b :: bs => a == b && isPrefixB as bs

/-- Boolean "pat occurs as a contiguous sublist of hay": Python's `pat in hay`
on strings. -/
def isInfixB (pat : List Char) : List Char → Bool
  | [] => isPrefixB pat []
  | hay@(_ :: rest) => isPrefixB pat hay || isInfixB pat rest

/-- Python `pat in hay` (case-sensitive substring test). -/
def strContains (hay pat : String) : Bool :=
  isInfixB pat.data hay.data

/-- Python `str.strip()`: drop leading and trailing whitespace. -/
def pyStrip (s : String) : String :=
  String.mk (((s.data.dropWhile Char.isWhitespace).reverse.dropWhile Char.isWhitespace).reverse)

/-- Python `str.lower()` (ASCII data in this code base). -/
def lowerStr (s : String) : String :=
  String.mk (s.data.map Char.toLower)

/-- Worker for Python `str.split()`: split on whitespace runs, dropping empty
pieces; `cur` holds the current word reversed. -/
def splitWsAux : List Char → List Char → List String
  | [], cur => if cur = [] then [] else [String.mk cur.reverse]
  | c :: rest, cur =>
    if Char.isWhitespace c then
      if cur = [] then splitWsAux rest []
      else String.mk cur.reverse :: splitWsAux rest []
    else splitWsAux rest (c :: cur)

/-- Python `str.split()` with no argument. -/
def pyWords (s : String) : List String :=
  splitWsAux s.data []

/-- Python `" ".join(l)`. -/
def joinSpace : List String → String
  | [] => ""
  | [s] => s
  | s :: rest => s ++ " " ++ joinSpace rest

/-- Python `str.endswith(c)` for a single character. -/
def endsWithChar (s : String) (c : Char) : Bool :=
  s.data.getLast? == some c

/-- Python `str.replace(pat, repl)`: left-to-right, non-overlapping. -/
def replaceAllAux (pat repl : List Char) : List Char → List Char
  | [] => []
  | c :: rest =>
    if pat ≠ [] ∧ isPrefixB pat (c :: rest) then
      repl ++ replaceAllAux pat repl ((c :: rest).drop pat.length)
    else c :: replaceAllAux pat repl rest
termination_by l => l.length
decreasing_by
  · rename_i h
    have hpos : 0 < pat.length := List.length_pos.mpr h.1
    simp only [List.length_drop, List.length_cons]
    omega
  · simp

def replaceAll (s pat repl : String) : String :=
  String.mk (replaceAllAux pat.data repl.data s.data)

/-- Python `str.find(c)`: index of the first occurrence, `none` for -1. -/
def pyFind (s : String) (c : Char) : Option Nat :=
  s.data.indexOf? c

/-- Python `str.rfind(c)`: index of the last occurrence, `none` for -1. -/
def pyRFind (s : String) (c : Char) : Option Nat :=
  match s.data.reverse.indexOf? c with
  | none => none
  | some i => some (s.data.length - 1 - i)

/-! ## `utils/merge_text.py` -/

/-- The fixed point of `_clean_text`'s `while "  " in text: text = text.replace("  ", " ")`
loop: every maximal run of space characters collapses to a single space (a space
is dropped whenever the next character is also a space). -/
def collapseSpacesAux : List Char → List Char
  | [] => []
  | c :: rest =>
    if c = ' ' ∧ rest.head? = some ' ' then collapseSpacesAux rest
    else c :: collapseSpacesAux rest

def collapseSpaces (s : String) : String :=
  String.mk (collapseSpacesAux s.data)

/-- Embeds `_clean_text`'s sentence scanner: accumulate characters, emitting the stripped
chunk whenever a terminal punctuation character closes a non-blank chunk
(merge_text.py lines 84-93). -/
def splitSentencesAux : List Char → String → List String
  | [], current => if pyStrip current ≠ "" then [pyStrip current] else []
  | c :: rest, current =>
    let current := current.push c
    if (c = '.' ∨ c = '!' ∨ c = '?') ∧ pyStrip current ≠ "" then
      pyStrip current :: splitSentencesAux rest ""
    else
      splitSentencesAux rest current

def splitSentences (s : String) : List String :=
  splitSentencesAux s.data ""

/-- Embeds `_clean_text`'s duplicate-sentence removal: keep first occurrences, drop
empty chunks (merge_text.py lines 96-99). -/
def dedupKeepOrder (l : List String) : List String :=
  l.foldl (fun acc s => if s ≠ "" ∧ ¬ acc.contains s then acc ++ [s] else acc) []

/-- Embeds `_clean_text`'s stutter suppression (merge_text.py lines 107-130), written on
the suffix of the word list.  At absolute index `i` the Python loop compares the
3-word phrase at `i` against the phrases at `j ∈ [i+3, min(i+10, len-2))`; on the
suffix `ws = words[i:]` those bounds become `j-i ∈ [3, min(10, ws.length-2))`,
independent of `i`.  When fewer than 3 words remain, each word is kept and the
index advances by one; a skipped phrase advances the index by 3. -/
def dropRepeatedPhrases : List String → List String
  | [] => []
  | [w] => [w]
  | [w1, w2] => [w1, w2]
  | a :: b :: c :: rest =>
    let ws := a :: b :: c :: rest
    let phrase := lowerStr (joinSpace (ws.take 3))
    let stop := min 10 (ws.length - 2)
    let skip := (List.range' 3 (stop - 3)).any
      (fun j => lowerStr (joinSpace ((ws.drop j).take 3)) == phrase)
    if skip then dropRepeatedPhrases rest
    else a :: dropRepeatedPhrases (b :: c :: rest)

/-- Embeds `_clean_text` (merge_text.py lines 69-135). -/
def cleanText (text : String) : String :=
  if text = "" then text
  else
    let t := pyStrip (collapseSpaces text)
    let sentences := splitSentences t
    let uniq := dedupKeepOrder sentences
    let result := joinSpace uniq
    let words := pyWords result
    if words.length > 6 then
      let cleaned := dropRepeatedPhrases words
      if cleaned ≠ [] then joinSpace cleaned else result
    else result

/-- Lowercased word-by-word comparison of the last `s` words of `cur` with the
first `s` words of `new` (merge_text.py line 39). -/
def overlapMatchAt (cur new : List String) (s : Nat) : Bool :=
  ((cur.drop (cur.length - s)).map lowerStr) == ((new.take s).map lowerStr)

/-- The descending overlap search `for size in range(max_overlap, 0, -1)`
(merge_text.py lines 37-41): the largest size in `1..k` that matches, else 0. -/
def overlapSizeAux (cur new : List String) : Nat → Nat
  | 0 => 0
  | k + 1 =>
    if overlapMatchAt cur new (k + 1) then k + 1
    else overlapSizeAux cur new k

/-- Embeds `add_text_with_overlap_check` (merge_text.py lines 9-56), with the session's
`accumulated_texts[ws_id]` made explicit.  Returns the new buffer and the text
that was actually added. -/
def add_text_with_overlap_check (acc newText : String) : String × String :=
  if newText = "" then (acc, "")
  else if pyStrip acc = "" then (newText, newText)
  else
    let currentText := pyStrip acc
    let currentWords := pyWords currentText
    let newWords := pyWords newText
    if strContains (lowerStr currentText) (lowerStr newText) then
      (acc, "")
    else
      let maxOverlap := min (min currentWords.length newWords.length) 10
      let overlapSize := overlapSizeAux currentWords newWords maxOverlap
      if overlapSize > 0 then
        let addedText := joinSpace (newWords.drop overlapSize)
        if addedText ≠ "" then
          (cleanText (acc ++ " " ++ addedText), addedText)
        else (acc, "")
      else
        (cleanText (acc ++ " " ++ newText), newText)

/-! ## Silence-threshold selection (`websocket_manager.py` lines 114, 645-657) -/

/-- Embeds `self.silence_threshold = 1.2` (websocket_manager.py line 114). -/
def silence_threshold : ℚ := 12/10

/-- Embeds `has_ending_punctuation` (websocket_manager.py line 647): the stripped buffered
text is non-empty and ends with '.', '?' or '!'. -/
def hasEndingPunct (currentText : String) : Bool :=
  currentText ≠ "" &&
    (endsWithChar currentText '.' || endsWithChar currentText '?' || endsWithChar currentText '!')

/-- The `if current_text and not has_ending_punctuation:` test of
websocket_manager.py line 651. -/
def extendedThresholdApplies (accumulated : String) : Bool :=
  pyStrip accumulated ≠ "" && ! hasEndingPunct (pyStrip accumulated)

/-- Embeds `effective_threshold` (websocket_manager.py lines 645-654): the base silence
threshold, extended to 1.4 s for non-empty unpunctuated buffered text. -/
def effectiveSilenceThreshold (accumulated : String) : ℚ :=
  if extendedThresholdApplies accumulated then 14/10
  else silence_threshold

/-- The silence threshold as claim C3 (spec §4.2) words it: 1.0 s below 30 words,
1.2 s otherwise, 1.4 s whenever terminal punctuation is missing.  Stated from the
spec only, for comparison against `effectiveSilenceThreshold`. -/
def c3SpecThreshold (accumulated : String) : ℚ :=
  if ¬ hasEndingPunct (pyStrip accumulated) then 14/10
  else if (pyWords accumulated).length < 30 then 1
  else 12/10

/-! ## `memory/memory_b.py`: `ConversationState` and its operations

`last_update_time : datetime` is the one field left out of the embedding: it is
write-only bookkeeping never read by any operation. -/

structure ConversationState where
  state_index : Nat := 0
  attempts : Nat := 0
  expected_output_type : String := ""
  last_response : String := ""
  follow_up_instructions : String := ""
  max_attempts : Nat := 2
  original_question : String := ""
  expected_output : String := ""
  followup_attempts : Nat := 0
  followup_qa_pairs : List (String × String) := []
  max_followup_attempts : Nat := 2
  extracted_values : List (String × String) := []
  response_type : String := ""
  response_categories : List (String × String) := []
  deriving Repr, DecidableEq

/-- Python dict insertion `d[k] = v` on an association list (keys are unique:
replace the entry in place, else append). -/
def assocInsert : List (String × String) → String → String → List (String × String)
  | [], k, v => [(k, v)]
  | p :: rest, k, v => if p.1 == k then (k, v) :: rest else p :: assocInsert rest k v

/-- Python `k in d` / `d.get(k)` on an association list. -/
def assocLookup (l : List (String × String)) (k : String) : Option String :=
  (l.find? (fun p => p.1 == k)).map (fun p => p.2)

/-- Embeds `MemoryB.should_advance_state` (memory_b.py lines 151-173), as a pure function
of the call's `ConversationState`. -/
def shouldAdvanceState (st : ConversationState) : Bool :=
  if st.response_type ≠ "" ∧ st.response_type ∉ ["irrelevant", "default"] then true
  else if st.state_index = 5 ∧ (assocLookup st.extracted_values "notice_period_threshold").isSome
      ∧ (st.response_type = "immediate" ∨ st.response_type = "short_notice") then true
  else st.followup_attempts ≥ st.max_followup_attempts

/-- Embeds `MemoryB.can_ask_followup` (memory_b.py lines 217-223), on the state. -/
def canAskFollowup (st : ConversationState) : Bool :=
  st.followup_attempts < st.max_followup_attempts

/-- Embeds `MemoryB.add_followup_qa` (memory_b.py lines 204-215), on the state: append the
pair and bump the counter, with no ceiling check. -/
def addFollowupQaState (st : ConversationState) (question answer : String) : ConversationState :=
  { st with
    followup_qa_pairs := st.followup_qa_pairs ++ [(question, answer)]
    followup_attempts := st.followup_attempts + 1 }

/-- Embeds `MemoryB.set_question_data` (memory_b.py lines 185-202), on the state.  Note the
Python truthiness guards: an empty `response_categories` dict and a `max_followups`
of 0 are ignored. -/
def setQuestionDataState (st : ConversationState) (question expectedOutput : String)
    (responseCategories : List (String × String)) (maxFollowups : Nat) : ConversationState :=
  let st := { st with original_question := question, expected_output := expectedOutput }
  let st := if responseCategories ≠ [] then
      { st with response_categories := responseCategories } else st
  if maxFollowups ≠ 0 then { st with max_followup_attempts := maxFollowups } else st

/-- Embeds `MemoryB.advance_state` (memory_b.py lines 132-149): the full per-question reset.
Only tests call it; the live flow advances through `ConversationManager.advance_state`. -/
def memAdvanceState (st : ConversationState) : ConversationState :=
  { st with
    state_index := st.state_index + 1
    attempts := 0
    last_response := ""
    followup_attempts := 0
    followup_qa_pairs := []
    extracted_values := []
    response_type := "" }

/-! ## `handlers/conversation_manager.py` -/

/-- One question's data as consumed from Memory A
(`get_question_data` results; `.get(key, default)` accesses folded into fields). -/
structure QuestionData where
  question : String := ""
  expected_answer_type : String := ""
  max_followups : Nat := 2
  response_categories : List (String × String) := []
  follow_up_instructions : List (String × String) := []
  deriving Repr, DecidableEq

/-- The parsed classifier analysis (`response_type` / `extracted_value` /
`needs_followup` with their `.get` defaults already applied,
conversation_manager.py lines 304-307).  `extracted_value` carries `str(value)`. -/
structure Analysis where
  response_type : String := "default"
  extracted_value : Option String := none
  needs_followup : Bool := false
  deriving Repr, DecidableEq

/-- Outcome of `ConversationManager.process_response`:
`(True, None, _)` = advance, `(False, q, None)` = ask follow-up `q`,
`(False, None, err)` = error return. -/
inductive POutcome where
  | advance
  | followup (question : String)
  | failed (message : String)
  deriving Repr, DecidableEq

/-- Embeds `follow_up_instructions.get(response_type, "")` (conversation_manager.py line 318). -/
def instrLookup (instr : List (String × String)) (k : String) : String :=
  (assocLookup instr k).getD ""

/-- Placeholder substitution loop of conversation_manager.py lines 323-327: replace
each `{key}` of the state's extracted values appearing in the template. -/
def formatWithExtracted (template : String) (extracted : List (String × String)) : String :=
  extracted.foldl
    (fun acc kv =>
      let placeholder := "\x7b" ++ kv.1 ++ "\x7d"
      if strContains acc placeholder then replaceAll acc placeholder kv.2 else acc)
    template

/-- Update of the latest follow-up pair's answer (conversation_manager.py
lines 202-208): replace the last pair's answer with the new response text. -/
def fillLastAnswer : List (String × String) → String → List (String × String)
  | [], _ => []
  | [(q, _)], answer => [(q, answer)]
  | p :: rest, answer => p :: fillLastAnswer rest answer

/-- Lines 202-216 of `process_response`: record the answer to a pending
follow-up in the last QA pair and store `last_response`. -/
def recordAnswer (st : ConversationState) (responseText : String) : ConversationState :=
  if st.followup_qa_pairs ≠ [] then
    { st with
      followup_qa_pairs := fillLastAnswer st.followup_qa_pairs responseText
      last_response := responseText }
  else { st with last_response := responseText }

/-- Lines 310-314 of `process_response`: store the classifier label
(`set_response_type`) and, when present, the stringified extracted value
(`set_extracted_value` under the key `"extracted_value"`). -/
def storeAnalysis (st : ConversationState) (analysis : Analysis) : ConversationState :=
  let st := { st with response_type := analysis.response_type }
  match analysis.extracted_value with
  | some v => { st with extracted_values := assocInsert st.extracted_values "extracted_value" v }
  | none => st

/-- Lines 351-359 of `process_response`: the follow-up template
`follow_up_instructions.get(response_type, follow_up_instructions.get("default", ""))`
— the `"default"` entry is used only when the label key is absent (a present but
empty value is kept) — replaced by the previous follow-up question when an
answer to a follow-up is classified irrelevant/default. -/
def followupTemplate (st : ConversationState) (qd : QuestionData) (responseType : String) :
    String :=
  let template := match assocLookup qd.follow_up_instructions responseType with
    | some v => v
    | none => instrLookup qd.follow_up_instructions "default"
  if st.followup_qa_pairs ≠ [] ∧ (responseType = "irrelevant" ∨ responseType = "default") then
    -- `conv_state.followup_qa_pairs[-1]`: guarded by the non-empty test, so the
    -- `getD` default is never taken
    (st.followup_qa_pairs.getLast?.map Prod.fst).getD ""
  else template

/-- Lines 368-376 of `process_response`: substitute the `extracted_value`
placeholder, then fall back to an LLM-generated question if placeholders remain. -/
def resolveFollowupQuestion (template : String) (analysis : Analysis)
    (llmGeneratedQ : String) : String :=
  let followupQuestion := template
  let followupQuestion :=
    if strContains followupQuestion "\x7bextracted_value\x7d" ∧
        analysis.extracted_value.isSome then
      replaceAll followupQuestion "\x7bextracted_value\x7d" (analysis.extracted_value.getD "")
    else followupQuestion
  if strContains followupQuestion "\x7b" ∧ strContains followupQuestion "\x7d" then
    llmGeneratedQ
  else followupQuestion

/-- Embeds `ConversationManager.process_response` (conversation_manager.py lines 173-386),
as a function of the call's conversation state.  External effects are parameters:
`analysis` is the already-parsed classifier output (the LLM call and JSON
extraction are modelled by `analysisOfReply` below), `llmGeneratedQ` the result of
`_generate_followup_question_with_llm` for the unresolved-placeholder branch.
The `response_buffers` update (line 180) lives at the MemoryB level, not here. -/
def processResponseStep (st : ConversationState) (responseText : String)
    (qd : Option QuestionData) (analysis : Analysis) (llmGeneratedQ : String) :
    ConversationState × POutcome :=
  -- line 188: state 0 auto-advances after a warm-up LLM call
  if st.state_index = 0 then (st, .advance)
  else
    let st := recordAnswer st responseText
    match qd with
    | none => (st, .failed "No question data found")       -- lines 219-221
    | some qd =>
      if qd.response_categories = [] then                  -- lines 226-228
        (st, .failed "No response categories defined")
      else
        let st := storeAnalysis st analysis
        -- lines 317-335: first-follow-up shortcut when a template exists
        let followUpText := instrLookup qd.follow_up_instructions analysis.response_type
        if followUpText ≠ "" ∧ st.followup_qa_pairs = [] then
          let formatted := formatWithExtracted followUpText st.extracted_values
          (addFollowupQaState st formatted "", .followup formatted)
        else if shouldAdvanceState st then (st, .advance)  -- lines 338-340
        else if ¬ canAskFollowup st ∨ ¬ analysis.needs_followup then
          (st, .advance)                                   -- lines 345-348
        else
          let template := followupTemplate st qd analysis.response_type
          if template = "" then (st, .advance)             -- lines 362-365
          else
            let followupQuestion := resolveFollowupQuestion template analysis llmGeneratedQ
            (addFollowupQaState st followupQuestion "", .followup followupQuestion)

/-- Embeds `ConversationManager.advance_state` (conversation_manager.py lines 100-171) in
the case where a next question exists, on the conversation state: bump the index,
reset the follow-up tracking (`update_state(followup_attempts=0, followup_qa_pairs=[])`),
then store the next question's data.  When no next question exists the code instead
clears the whole conversation and returns the closing message. -/
def cmAdvanceState (st : ConversationState) (qd : QuestionData) : ConversationState :=
  let st := { st with state_index := st.state_index + 1 }
  let st := { st with followup_attempts := 0, followup_qa_pairs := [] }
  setQuestionDataState st qd.question qd.expected_answer_type qd.response_categories qd.max_followups

/-- The closing message returned by `ConversationManager.advance_state` when the
question bank is exhausted (conversation_manager.py line 123). -/
def endCallMessage : String :=
  "Thank you for your time. We have recorded all of your answers.. The interview is now complete. Goodbye."

/-! ## Classifier-reply parsing (conversation_manager.py lines 289-307) -/

/-- The keys the code reads from the parsed JSON object; each may be absent.
`extracted_value` is represented by the `str()` of whatever value was present. -/
structure ParsedReply where
  response_type : Option String := none
  extracted_value : Option String := none
  needs_followup : Option Bool := none
  deriving Repr, DecidableEq

/-- Embeds `llm_response[json_start:json_end]` span extraction: from the first `'\x7b'` to one
past the last `'\x7d'` (conversation_manager.py lines 290-291); `none` when either
brace is missing (`json_start == -1 or json_end == 0`). -/
def extractJsonSpan (reply : String) : Option String :=
  match pyFind reply '\x7b', pyRFind reply '\x7d' with
  | some a, some b => some (String.mk ((reply.data.drop a).take (b + 1 - a)))
  | _, _ => none

/-- The fallback analysis used when no JSON object can be extracted or parsed
(conversation_manager.py lines 295 and 302): label `default`, no extracted value,
`needs_followup` false. -/
def defaultAnalysis : Analysis := { response_type := "default" }

/-- Lines 289-307 of `process_response`: extract the brace span, parse it with
`json.loads` (an external library, abstracted as the `parse` parameter returning
`none` exactly when `json.loads` raises), and read the analysis fields with their
`.get` defaults. -/
def analysisOfReply (parse : String → Option ParsedReply) (reply : String) : Analysis :=
  match extractJsonSpan reply with
  | none => defaultAnalysis
  | some span =>
    match parse span with
    | none => defaultAnalysis
    | some parsed =>
      { response_type := parsed.response_type.getD "default"
        extracted_value := parsed.extracted_value
        needs_followup := parsed.needs_followup.getD false }

/-! ## MemoryB at the call-id map level (memory_b.py lines 38-331) -/

/-- The optional-keyword-argument record of `MemoryB.update_state`
(memory_b.py lines 49-102); `none` = argument not passed. -/
structure StateUpdate where
  state_index : Option Nat := none
  attempts : Option Nat := none
  expected_output_type : Option String := none
  last_response : Option String := none
  follow_up_instructions : Option String := none
  max_attempts : Option Nat := none
  original_question : Option String := none
  expected_output : Option String := none
  followup_attempts : Option Nat := none
  followup_qa_pairs : Option (List (String × String)) := none
  max_followup_attempts : Option Nat := none
  extracted_values : Option (List (String × String)) := none
  response_type : Option String := none
  response_categories : Option (List (String × String)) := none
  deriving Repr

/-- Field-by-field application of `update_state`'s keyword arguments
(memory_b.py lines 73-100). -/
def applyUpdate (st : ConversationState) (u : StateUpdate) : ConversationState :=
  let st := match u.state_index with | some v => { st with state_index := v } | none => st
  let st := match u.attempts with | some v => { st with attempts := v } | none => st
  let st := match u.expected_output_type with
    | some v => { st with expected_output_type := v } | none => st
  let st := match u.last_response with | some v => { st with last_response := v } | none => st
  let st := match u.follow_up_instructions with
    | some v => { st with follow_up_instructions := v } | none => st
  let st := match u.max_attempts with | some v => { st with max_attempts := v } | none => st
  let st := match u.original_question with
    | some v => { st with original_question := v } | none => st
  let st := match u.expected_output with
    | some v => { st with expected_output := v } | none => st
  let st := match u.followup_attempts with
    | some v => { st with followup_attempts := v } | none => st
  let st := match u.followup_qa_pairs with
    | some v => { st with followup_qa_pairs := v } | none => st
  let st := match u.max_followup_attempts with
    | some v => { st with max_followup_attempts := v } | none => st
  let st := match u.extracted_values with
    | some v => { st with extracted_values := v } | none => st
  let st := match u.response_type with | some v => { st with response_type := v } | none => st
  match u.response_categories with
    | some v => { st with response_categories := v } | none => st

/-- The two dictionaries owned by a `MemoryB` instance (memory_b.py lines 38-41). -/
structure MemoryB where
  conversation_states : List (String × ConversationState) := []
  response_buffers : List (String × String) := []

/-- Generic dict write keyed by call id (keys unique: replace in place, else append). -/
def putState : List (String × ConversationState) → String → ConversationState →
    List (String × ConversationState)
  | [], sid, st => [(sid, st)]
  | p :: rest, sid, st => if p.1 == sid then (sid, st) :: rest else p :: putState rest sid st

def getState (m : MemoryB) (sid : String) : Option ConversationState :=
  (m.conversation_states.find? (fun p => p.1 == sid)).map (fun p => p.2)

/-- Embeds `MemoryB.initialize_conversation` (memory_b.py lines 43-47). -/
def initializeConversation (m : MemoryB) (sid : String) (initialState : Nat := 0) : MemoryB :=
  { conversation_states := putState m.conversation_states sid { state_index := initialState }
    response_buffers := assocInsert m.response_buffers sid "" }

/-- Embeds `MemoryB.update_state` (memory_b.py lines 49-102).  A missing call id is first
given a freshly initialized conversation (lines 68-69), then the updates apply. -/
def updateState (m : MemoryB) (sid : String) (u : StateUpdate) : MemoryB :=
  let m := if (getState m sid).isNone then initializeConversation m sid else m
  match getState m sid with
  | some st => { m with conversation_states := putState m.conversation_states sid (applyUpdate st u) }
  | none => m

/-- Embeds `MemoryB.buffer_response` (memory_b.py lines 108-114): only the response
buffer dict is written; a missing key is created. -/
def bufferResponse (m : MemoryB) (sid : String) (responseText : String) : MemoryB :=
  { m with response_buffers := assocInsert m.response_buffers sid responseText }

/-- Embeds `MemoryB.set_question_data` (memory_b.py lines 185-202): warn-and-return on a
missing call id. -/
def setQuestionDataM (m : MemoryB) (sid : String) (question expectedOutput : String)
    (responseCategories : List (String × String)) (maxFollowups : Nat) : MemoryB :=
  match getState m sid with
  | none => m
  | some st =>
    let st := setQuestionDataState st question expectedOutput responseCategories maxFollowups
    { m with conversation_states := putState m.conversation_states sid st }

/-- Embeds `MemoryB.add_followup_qa` (memory_b.py lines 204-215): `False` and no write on
a missing call id. -/
def addFollowupQaM (m : MemoryB) (sid : String) (question answer : String) : MemoryB × Bool :=
  match getState m sid with
  | none => (m, false)
  | some st =>
    let st := addFollowupQaState st question answer
    ({ m with conversation_states := putState m.conversation_states sid st }, true)

/-- Embeds `MemoryB.set_response_type` (memory_b.py lines 242-249). -/
def setResponseTypeM (m : MemoryB) (sid : String) (responseType : String) : MemoryB :=
  match getState m sid with
  | none => m
  | some st =>
    let st := { st with response_type := responseType }
    { m with conversation_states := putState m.conversation_states sid st }

/-- Embeds `MemoryB.set_extracted_value` (memory_b.py lines 233-240). -/
def setExtractedValueM (m : MemoryB) (sid : String) (key value : String) : MemoryB :=
  match getState m sid with
  | none => m
  | some st =>
    let st := { st with extracted_values := assocInsert st.extracted_values key value }
    { m with conversation_states := putState m.conversation_states sid st }

/-- Embeds `MemoryB.should_advance_state` at the map level (memory_b.py lines 158-159):
`False` on a missing call id. -/
def shouldAdvanceStateM (m : MemoryB) (sid : String) : Bool :=
  match getState m sid with
  | none => false
  | some st => shouldAdvanceState st

/-! ## The live WebSocket session (`handlers/websocket_manager.py`)

A call session's per-connection entries in the manager's dictionaries, gathered in
one record.  Byte buffers are modelled by their length; `current_audio_buffer` is
`none` for Python `None`.  The `speaking`/`listening`/exit `asyncio.Event`s are
booleans (`set`/`clear`). -/

inductive SpeechState where
  | collecting
  | fallback
  | silence
  deriving Repr, DecidableEq

structure Session where
  speaking : Bool := false
  listening : Bool := false
  exiting : Bool := false
  interruption_detected : Bool := false
  marks : List String := []
  accumulated_text : String := ""
  replay_count : Nat := 0
  current_audio_buffer : Option Nat := none
  current_audio_text : String := ""
  fallback_active : Bool := false
  speech_state : SpeechState := .collecting
  deriving Repr, DecidableEq

/-- Externally visible effects of one dispatch of the receive loop, in order. -/
inductive RAction where
  | sleepFallbackDelay                  -- `await asyncio.sleep(0.3)` (line 553)
  | scheduleDelayedFallback             -- `create_task(_delayed_fallback_start(...))` (line 557)
  | streamAudioBuffer (size : Nat)      -- `audio_service.stream_audio(...)` (line 1029)
  | sendMark (label : String)           -- `_send_mark(ws_id)` (line 1038)
  deriving Repr, DecidableEq

/-- A transcript event returned by `_check_for_transcript`: the first alternative's
transcript (raw, stripped at use sites), its confidence, and the two Deepgram
flags. -/
structure DgMsg where
  transcript : String := ""
  confidence : ℚ := 0
  is_final : Bool := false
  speech_final : Bool := false
  deriving Repr, DecidableEq

/-- Merge helper: `add_text_with_overlap_check(self, ws_id, t)` updates
`accumulated_texts[ws_id]` in place. -/
def mergeAccumulated (st : Session) (t : String) : Session :=
  { st with accumulated_text := (add_text_with_overlap_check st.accumulated_text t).1 }

/-- Transcript processing while listening (`_handle_deepgram_receiving`,
websocket_manager.py lines 536-601): the `speech_final` branch, the `is_final`
branch, and the confidence-gated interim branch with its fallback/silence
transitions.  Each branch ends with the loop's `continue`. -/
def transcriptStep (st : Session) (m : DgMsg) : Session × List RAction :=
  if m.speech_final then
    -- lines 539-542: fallback window opens immediately
    let st := { st with fallback_active := true }
    let transcript := pyStrip m.transcript
    if transcript ≠ "" then
      (mergeAccumulated st transcript, [.sleepFallbackDelay, .scheduleDelayedFallback])
    else (st, [])
  else if m.is_final then
    -- lines 558-565
    let transcript := pyStrip m.transcript
    if transcript ≠ "" then (mergeAccumulated st transcript, []) else (st, [])
  else
    -- lines 566-594: interim transcripts, threshold 0.80 during fallback else 0.88
    let interimText := pyStrip m.transcript
    let confidenceThreshold : ℚ := if st.fallback_active then 80/100 else 88/100
    if m.confidence > confidenceThreshold ∧ interimText ≠ "" then
      let st := mergeAccumulated st interimText
      if st.fallback_active then (st, [])  -- line 585: fallback timer resets
      else if st.speech_state = .silence then
        ({ st with speech_state := .fallback, fallback_active := true }, [])
      else (st, [])
    else (st, [])

/-- Embeds `_replay_audio` (websocket_manager.py lines 996-1047).  `newMark` is the fresh
uuid label `_send_mark` would generate.  The returned `Bool` is the method's
return value. -/
def replayAudio (st : Session) (newMark : String) : Session × List RAction × Bool :=
  -- lines 1000-1002: nothing to replay (`None` or empty buffer)
  if st.current_audio_buffer = none ∨ st.current_audio_buffer = some 0 then (st, [], false)
  else
    let size := st.current_audio_buffer.getD 0
    if size < 1000 then (st, [], false)                  -- lines 1005-1008
    else if st.replay_count ≥ 3 then (st, [], false)     -- lines 1015-1017
    else
      let st := { st with replay_count := st.replay_count + 1 }
      let st := { st with marks := st.marks ++ [newMark], speaking := true }
      (st, [.streamAudioBuffer size, .sendMark newMark], true)

/-- The barge-in body (websocket_manager.py lines 606-626): a non-empty interim
transcript while speaking sets the interruption flag, clears the accumulated
text, and calls `_replay_audio`. -/
def interruptionStep (st : Session) (msg : Option DgMsg) (newMark : String) :
    Session × List RAction :=
  match msg with
  | some m =>
    let interimText := pyStrip m.transcript
    if interimText ≠ "" then
      let st := { st with interruption_detected := true, accumulated_text := "" }
      let (st, acts, _) := replayAudio st newMark
      (st, acts)
    else (st, [])
  | none => (st, [])

/-- One dispatch of `_handle_deepgram_receiving`'s loop body over the result of
`_check_for_transcript` (websocket_manager.py lines 515-626).  The trailing `Bool`
is true when control falls through to the timer-driven silence section
(lines 628-889), which is modelled separately (`effectiveSilenceThreshold`).
`_check_for_transcript` returns either `none` or a message with a `channel`:
a returned message is truthy, so the `if message_json:` block (lines 525-601)
consumes every `some` and always ends in `continue`; the speaking test at
line 604 is therefore only ever reached with `message_json = None`, and its inner
`if message_json is not None:` guard decides the barge-in body. -/
def receiveDispatch (st : Session) (msg : Option DgMsg) (newMark : String) :
    Session × List RAction × Bool :=
  match msg with
  | some m =>
    if ¬ st.listening then (st, [], false)     -- lines 527-534: ignored, continue
    else
      let (st, acts) := transcriptStep st m
      (st, acts, false)
  | none =>
    if st.speaking then
      -- lines 603-626 with message_json = None
      let (st, acts) := interruptionStep st none newMark
      (st, acts, false)
    else (st, [], true)

/-- The live mark handling of `handle_websocket` (websocket_manager.py
lines 307-326): for a known mark label, clear `speaking`, set `listening`, reset
the interruption flag; the literal `"end call"` label sets the exit event.  The
label is never removed from `marks` and the accumulated text is untouched. -/
def markStepLive (st : Session) (markName : String) : Session :=
  if st.marks.contains markName then
    let st := { st with speaking := false, listening := true }
    let st := if st.interruption_detected then { st with interruption_detected := false } else st
    if markName = "end call" then { st with exiting := true } else st
  else st

/-- Mark handling of the never-called `_handle_client_messages`
(websocket_manager.py lines 416-444): remove the label; when the list empties
while speaking, clear `speaking`, clear the accumulated text and the interruption
flag (`listening` is not touched); `"end call"` sets the exit event. -/
def markStepAlt (st : Session) (label : String) : Session :=
  let st := if st.marks.contains label then { st with marks := st.marks.erase label } else st
  let st :=
    if st.marks.isEmpty ∧ st.speaking then
      let st := { st with speaking := false, accumulated_text := "" }
      if st.interruption_detected then { st with interruption_detected := false } else st
    else st
  if label = "end call" then { st with exiting := true } else st

/-! ## Final-message detection (call termination by string matching) -/

/-- The contains-both-phrases test of websocket_manager.py lines 800 and 871. -/
def containsBothFinalPhrases (text : String) : Bool :=
  strContains (lowerStr text) "thank you for your time" &&
    strContains (lowerStr text) "goodbye"

/-- The `text.startswith(...)` test of `_stream_elevenlabs_audio`
(websocket_manager.py line 1163). -/
def startsWithFinalPhrase (text : String) : Bool :=
  isPrefixB "Thank you for your time".data text.data

/-- Whether `_stream_elevenlabs_audio` schedules `_close_after_final_message`
(websocket_manager.py lines 1162-1167).  No caller passes `is_final_message=True`. -/
def synthPathSchedulesClose (isFinalMessage : Bool) (text : String) : Bool :=
  isFinalMessage || startsWithFinalPhrase text

/-- Whether playing follow-up text `t` schedules teardown: the first follow-up of a
question streams through `_stream_from_queue` (no prefix check), later ones through
`_stream_elevenlabs_audio`; afterwards the loop applies the contains-both check
(websocket_manager.py lines 742-803). -/
def followupPlaybackSchedulesClose (isFirstFollowup : Bool) (text : String) : Bool :=
  (if isFirstFollowup then false else synthPathSchedulesClose false text)
    || containsBothFinalPhrases text

/-- Whether playing the next question / closing text after a state advance
schedules teardown: `_stream_elevenlabs_audio` plus the loop's contains-both check
(websocket_manager.py lines 855 and 871-874). -/
def advanceTextSchedulesClose (text : String) : Bool :=
  synthPathSchedulesClose false text || containsBothFinalPhrases text

/-- Claim C10's description of the termination condition: the text contains both
phrases case-insensitively, or it goes through the synthesis path and begins with
the fixed prefix. -/
def c10ClaimCondition (viaSynthPath : Bool) (text : String) : Bool :=
  containsBothFinalPhrases text || (viaSynthPath && startsWithFinalPhrase text)

/-- Fixed texts played by the controller outside the follow-up/advance paths. -/
def greetingMessage : String :=
  "Hello, this is an AI screening call. Please say something to start the call."

def callbackMessage : String :=
  "Okay, we will connect with you at a more suitable time. Thank you for your response."

def silenceMessage : String :=
  "You are not audible. Could you please repeat that?"

/-! ## Helper lemmas -/

theorem fillLastAnswer_length (pairs : List (String × String)) (answer : String) :
    (fillLastAnswer pairs answer).length = pairs.length := by
  induction pairs with
  | nil => rfl
  | cons p rest ih =>
    cases rest with
    | nil => cases p; rfl
    | cons q rest' => simpa [fillLastAnswer] using ih

theorem fillLastAnswer_eq_nil_iff (pairs : List (String × String)) (answer : String) :
    fillLastAnswer pairs answer = [] ↔ pairs = [] := by
  constructor
  · intro h
    have := fillLastAnswer_length pairs answer
    rw [h] at this
    exact List.length_eq_zero.mp this.symm
  · intro h; subst h; rfl

theorem getLast?_cons_of_ne (x : String × String) (l : List (String × String)) (h : l ≠ []) :
    (x :: l).getLast? = l.getLast? := by
  cases l with
  | nil => exact absurd rfl h
  | cons y ys => rfl

theorem fillLastAnswer_getLast_fst (pairs : List (String × String)) (answer : String) :
    (fillLastAnswer pairs answer).getLast?.map Prod.fst = pairs.getLast?.map Prod.fst := by
  induction pairs with
  | nil => rfl
  | cons p rest ih =>
    cases rest with
    | nil => cases p; rfl
    | cons q rest' =>
      have hne : fillLastAnswer (q :: rest') answer ≠ [] := by
        simp [fillLastAnswer_eq_nil_iff]
      show ((p :: fillLastAnswer (q :: rest') answer).getLast?).map Prod.fst =
        ((p :: q :: rest').getLast?).map Prod.fst
      rw [getLast?_cons_of_ne p _ hne, getLast?_cons_of_ne p (q :: rest') (by simp)]
      exact ih

theorem assocLookup_insert_ne (l : List (String × String)) (k v k' : String) (h : k' ≠ k) :
    assocLookup (assocInsert l k v) k' = assocLookup l k' := by
  have hkk : (k == k') = false := by simpa using fun he => h he.symm
  induction l with
  | nil => simp [assocInsert, assocLookup, List.find?, hkk]
  | cons p rest ih =>
    by_cases hp : p.1 = k
    · have hpk : (p.1 == k) = true := by simpa using hp
      have hpk' : (p.1 == k') = false := by
        rw [hp]; simpa using fun he : k = k' => h he.symm
      simp [assocInsert, assocLookup, List.find?, hpk, hpk', hkk, hp]
    · have hpk : (p.1 == k) = false := by simpa using hp
      by_cases hk' : p.1 = k'
      · have hpk' : (p.1 == k') = true := by simpa using hk'
        simp [assocInsert, assocLookup, List.find?, hpk, hpk']
      · have hpk' : (p.1 == k') = false := by simpa using hk'
        simpa [assocInsert, assocLookup, List.find?, hpk, hpk'] using ih

theorem putState_find (l : List (String × ConversationState)) (sid : String)
    (st : ConversationState) :
    (putState l sid st).find? (fun p => p.1 == sid) = some (sid, st) := by
  induction l with
  | nil => simp [putState, List.find?]
  | cons p rest ih =>
    by_cases hp : p.1 = sid
    · have hpk : (p.1 == sid) = true := by simpa using hp
      simp [putState, hpk, List.find?]
    · have hpk : (p.1 == sid) = false := by simpa using hp
      simpa [putState, hpk, List.find?] using ih

theorem recordAnswer_state_index (st : ConversationState) (txt : String) :
    (recordAnswer st txt).state_index = st.state_index := by
  unfold recordAnswer; split <;> rfl

theorem recordAnswer_extracted (st : ConversationState) (txt : String) :
    (recordAnswer st txt).extracted_values = st.extracted_values := by
  unfold recordAnswer; split <;> rfl

theorem recordAnswer_response_type (st : ConversationState) (txt : String) :
    (recordAnswer st txt).response_type = st.response_type := by
  unfold recordAnswer; split <;> rfl

theorem recordAnswer_attempts (st : ConversationState) (txt : String) :
    (recordAnswer st txt).followup_attempts = st.followup_attempts := by
  unfold recordAnswer; split <;> rfl

theorem recordAnswer_max (st : ConversationState) (txt : String) :
    (recordAnswer st txt).max_followup_attempts = st.max_followup_attempts := by
  unfold recordAnswer; split <;> rfl

theorem recordAnswer_pairs_length (st : ConversationState) (txt : String) :
    (recordAnswer st txt).followup_qa_pairs.length = st.followup_qa_pairs.length := by
  unfold recordAnswer; split <;> simp [fillLastAnswer_length]

theorem recordAnswer_pairs_nil_iff (st : ConversationState) (txt : String) :
    (recordAnswer st txt).followup_qa_pairs = [] ↔ st.followup_qa_pairs = [] := by
  unfold recordAnswer; split <;> simp [fillLastAnswer_eq_nil_iff]

theorem recordAnswer_pairs_getLast_fst (st : ConversationState) (txt : String) :
    (recordAnswer st txt).followup_qa_pairs.getLast?.map Prod.fst =
      st.followup_qa_pairs.getLast?.map Prod.fst := by
  unfold recordAnswer; split <;> simp [fillLastAnswer_getLast_fst]

theorem storeAnalysis_response_type (st : ConversationState) (a : Analysis) :
    (storeAnalysis st a).response_type = a.response_type := by
  unfold storeAnalysis; cases a.extracted_value <;> rfl

theorem storeAnalysis_extracted_none (st : ConversationState) (a : Analysis)
    (h : a.extracted_value = none) :
    (storeAnalysis st a).extracted_values = st.extracted_values := by
  unfold storeAnalysis; rw [h]

theorem storeAnalysis_state_index (st : ConversationState) (a : Analysis) :
    (storeAnalysis st a).state_index = st.state_index := by
  unfold storeAnalysis; cases a.extracted_value <;> rfl

theorem storeAnalysis_attempts (st : ConversationState) (a : Analysis) :
    (storeAnalysis st a).followup_attempts = st.followup_attempts := by
  unfold storeAnalysis; cases a.extracted_value <;> rfl

theorem storeAnalysis_max (st : ConversationState) (a : Analysis) :
    (storeAnalysis st a).max_followup_attempts = st.max_followup_attempts := by
  unfold storeAnalysis; cases a.extracted_value <;> rfl

theorem storeAnalysis_pairs (st : ConversationState) (a : Analysis) :
    (storeAnalysis st a).followup_qa_pairs = st.followup_qa_pairs := by
  unfold storeAnalysis; cases a.extracted_value <;> rfl

theorem storeAnalysis_notice_lookup (st : ConversationState) (a : Analysis) :
    assocLookup (storeAnalysis st a).extracted_values "notice_period_threshold" =
      assocLookup st.extracted_values "notice_period_threshold" := by
  unfold storeAnalysis
  cases h : a.extracted_value with
  | none => rfl
  | some v =>
    simp only [h]
    exact assocLookup_insert_ne _ _ _ _ (by decide)

theorem addFollowupQaState_extracted (st : ConversationState) (q a : String) :
    (addFollowupQaState st q a).extracted_values = st.extracted_values := rfl

theorem addFollowupQaState_response_type (st : ConversationState) (q a : String) :
    (addFollowupQaState st q a).response_type = st.response_type := rfl

theorem addFollowupQaState_attempts (st : ConversationState) (q a : String) :
    (addFollowupQaState st q a).followup_attempts = st.followup_attempts + 1 := rfl

theorem addFollowupQaState_max (st : ConversationState) (q a : String) :
    (addFollowupQaState st q a).max_followup_attempts = st.max_followup_attempts := rfl

theorem addFollowupQaState_pairs_length (st : ConversationState) (q a : String) :
    (addFollowupQaState st q a).followup_qa_pairs.length = st.followup_qa_pairs.length + 1 := by
  simp [addFollowupQaState]

/-- Every result state of `process_response` is the input state transformed by
`recordAnswer`, then possibly `storeAnalysis`, then possibly one gated
`add_followup_qa`; and the early-return shapes only occur under their guards. -/
theorem processResponseStep_state_shape (st : ConversationState) (txt : String)
    (qd : Option QuestionData) (a : Analysis) (llmQ : String) :
    ((processResponseStep st txt qd a llmQ).1 = st ∧ st.state_index = 0) ∨
    ((processResponseStep st txt qd a llmQ).1 = recordAnswer st txt ∧
      (qd = none ∨ ∃ q, qd = some q ∧ q.response_categories = [])) ∨
    (processResponseStep st txt qd a llmQ).1 = storeAnalysis (recordAnswer st txt) a ∨
    (∃ f, (processResponseStep st txt qd a llmQ).1 =
        addFollowupQaState (storeAnalysis (recordAnswer st txt) a) f "" ∧
      ((storeAnalysis (recordAnswer st txt) a).followup_qa_pairs = [] ∨
        canAskFollowup (storeAnalysis (recordAnswer st txt) a) = true)) := by
  rcases qd with _ | q
  · unfold processResponseStep
    split
    · rename_i h0
      exact Or.inl ⟨rfl, h0⟩
    · exact Or.inr (Or.inl ⟨rfl, Or.inl rfl⟩)
  · unfold processResponseStep
    split
    · rename_i h0
      exact Or.inl ⟨rfl, h0⟩
    · dsimp only
      split
      · rename_i hcats
        exact Or.inr (Or.inl ⟨rfl, Or.inr ⟨q, rfl, hcats⟩⟩)
      · split
        · rename_i hsc
          exact Or.inr (Or.inr (Or.inr ⟨_, rfl, Or.inl hsc.2⟩))
        · split
          · exact Or.inr (Or.inr (Or.inl rfl))
          · split
            · exact Or.inr (Or.inr (Or.inl rfl))
            · rename_i hcan
              have hcan' : canAskFollowup (storeAnalysis (recordAnswer st txt) a) = true := by
                by_contra hfalse
                exact hcan (Or.inl (by simpa using hfalse))
              split
              · exact Or.inr (Or.inr (Or.inl rfl))
              · exact Or.inr (Or.inr (Or.inr ⟨_, rfl, Or.inr hcan'⟩))

/-! ## Claim theorems -/

/-- C3 counterexample.  The claim says the silence threshold is 1.0 s for
buffered text of fewer than 30 words; on the buffered text `"Yes."` (one word,
terminal punctuation) the code uses its fixed 1.2 s threshold, not 1.0 s. -/
theorem c3_counterexample :
    effectiveSilenceThreshold "Yes." = 12/10 ∧ c3SpecThreshold "Yes." = 1 ∧
      effectiveSilenceThreshold "Yes." ≠ c3SpecThreshold "Yes." := by
  have h1 : extendedThresholdApplies "Yes." = false := by decide
  have h2 : hasEndingPunct (pyStrip "Yes.") = true := by decide
  have h3 : (pyWords "Yes.").length < 30 := by decide
  have e1 : effectiveSilenceThreshold "Yes." = 12/10 := by
    rw [effectiveSilenceThreshold, h1]; norm_num [silence_threshold]
  have e2 : c3SpecThreshold "Yes." = 1 := by
    simp [c3SpecThreshold, h2, h3]
  refine ⟨e1, e2, ?_⟩
  rw [e1, e2]; norm_num

/-- C3 (amended): the silence-timer threshold is 1.2 s regardless of the
buffered text's word count, and is 1.4 s exactly when the stripped buffered text
is non-empty and lacks terminal punctuation; it is never 1.0 s. -/
theorem c3_silence_threshold (t : String) :
    (effectiveSilenceThreshold t = 12/10 ∨ effectiveSilenceThreshold t = 14/10) ∧
    (hasEndingPunct (pyStrip t) = true → effectiveSilenceThreshold t = 12/10) ∧
    (pyStrip t ≠ "" → hasEndingPunct (pyStrip t) = false → effectiveSilenceThreshold t = 14/10) ∧
    (pyStrip t = "" → effectiveSilenceThreshold t = 12/10) ∧
    effectiveSilenceThreshold t ≠ 1 := by
  unfold effectiveSilenceThreshold silence_threshold extendedThresholdApplies
  split
  · rename_i hc
    rw [Bool.and_eq_true] at hc
    obtain ⟨hc1, hc2⟩ := hc
    have hc2' : hasEndingPunct (pyStrip t) = false := by
      simpa using hc2
    have hc1' : pyStrip t ≠ "" := of_decide_eq_true hc1
    refine ⟨Or.inr rfl, ?_, fun _ _ => rfl, ?_, by norm_num⟩
    · intro h; rw [h] at hc2'; exact absurd hc2' (by simp)
    · intro h; exact absurd h hc1'
  · rename_i hc
    refine ⟨Or.inl rfl, fun _ => rfl, ?_, fun _ => rfl, by norm_num⟩
    intro h1 h2
    refine absurd ?_ hc
    rw [Bool.and_eq_true, h2]
    exact ⟨decide_eq_true h1, rfl⟩

theorem c3_silence_threshold_witness :
    effectiveSilenceThreshold "Yes." = 12/10 ∧ effectiveSilenceThreshold "hello" = 14/10 :=
  ⟨(c3_silence_threshold "Yes.").2.1 (by decide),
   (c3_silence_threshold "hello").2.2.1 (by decide) (by decide)⟩

/-- Concrete state used to exhibit the C5 residue. -/
def c5State : ConversationState :=
  { state_index := 2, followup_attempts := 1, followup_qa_pairs := [("f1", "a1")],
    extracted_values := [("extracted_value", "5")], response_type := "years",
    last_response := "five years" }

def c5NextQd : QuestionData :=
  { question := "Q3", expected_answer_type := "text",
    response_categories := [("ok", "fine")], max_followups := 2 }

/-- C5 counterexample.  Advancing through the live path
(`ConversationManager.advance_state`) leaves the previous question's
`extracted_values` and `response_type` in place, contradicting the claimed
full reset. -/
theorem c5_counterexample :
    (cmAdvanceState c5State c5NextQd).extracted_values = [("extracted_value", "5")] ∧
    (cmAdvanceState c5State c5NextQd).response_type = "years" ∧
    ¬ ((cmAdvanceState c5State c5NextQd).extracted_values = [] ∧
       (cmAdvanceState c5State c5NextQd).response_type = "") := by
  refine ⟨by decide, by decide, by decide⟩

/-- C5 (amended): the live advance path increments the question index and
resets `followup_attempts` and `followup_qa_pairs`, but carries
`extracted_values`, `response_type` and `last_response` over unchanged; the full
reset lives only in the unused `MemoryB.advance_state`. -/
theorem c5_advance_reset (st : ConversationState) (qd : QuestionData) :
    (cmAdvanceState st qd).state_index = st.state_index + 1 ∧
    (cmAdvanceState st qd).followup_attempts = 0 ∧
    (cmAdvanceState st qd).followup_qa_pairs = [] ∧
    (cmAdvanceState st qd).extracted_values = st.extracted_values ∧
    (cmAdvanceState st qd).response_type = st.response_type ∧
    (cmAdvanceState st qd).last_response = st.last_response ∧
    (memAdvanceState st).followup_attempts = 0 ∧
    (memAdvanceState st).followup_qa_pairs = [] ∧
    (memAdvanceState st).extracted_values = [] ∧
    (memAdvanceState st).response_type = "" := by
  unfold cmAdvanceState setQuestionDataState memAdvanceState
  split <;> split <;> simp

/-- C10: teardown is scheduled exactly when the outbound text contains both
final phrases case-insensitively, or goes through the `_stream_elevenlabs_audio`
synthesis path and begins with the fixed prefix.  The first-follow-up path
(`_stream_from_queue`) has only the contains-both check; the other text playback
paths have both.  The fixed closing message triggers it; the greeting, callback
and silence messages do not; a follow-up question containing the phrases does. -/
theorem c10_termination_matching :
    (∀ t, followupPlaybackSchedulesClose true t = c10ClaimCondition false t) ∧
    (∀ t, followupPlaybackSchedulesClose false t = c10ClaimCondition true t) ∧
    (∀ t, advanceTextSchedulesClose t = c10ClaimCondition true t) ∧
    containsBothFinalPhrases endCallMessage = true ∧
    startsWithFinalPhrase endCallMessage = true ∧
    advanceTextSchedulesClose endCallMessage = true ∧
    c10ClaimCondition true greetingMessage = false ∧
    synthPathSchedulesClose false callbackMessage = false ∧
    synthPathSchedulesClose false silenceMessage = false ∧
    followupPlaybackSchedulesClose true
      "Before we wrap up, thank you for your time and goodbye unless you have questions: what notice period do you have?" = true := by
  refine ⟨?_, ?_, ?_, by decide, by decide, by decide, by decide, by decide, by decide, by decide⟩
  · intro t
    simp [followupPlaybackSchedulesClose, c10ClaimCondition, synthPathSchedulesClose]
  · intro t
    simp [followupPlaybackSchedulesClose, c10ClaimCondition, synthPathSchedulesClose,
      Bool.or_comm]
  · intro t
    simp [advanceTextSchedulesClose, c10ClaimCondition, synthPathSchedulesClose, Bool.or_comm]

/-- Concrete session used to exhibit the C2 divergence. -/
def c2Session : Session :=
  { marks := ["m1"], speaking := true, listening := false, accumulated_text := "hi" }

/-- C2 counterexample.  On a mark event for the only outstanding token, the
live handler (`handle_websocket`) leaves the token in the list and the utterance
buffer intact, and the unused alternative handler (`_handle_client_messages`)
empties the list without setting the listening flag — so neither handler performs
the claimed remove-token / clear-speaking / set-listening / clear-buffer
combination. -/
theorem c2_counterexample :
    (markStepLive c2Session "m1").marks = ["m1"] ∧
    (markStepLive c2Session "m1").accumulated_text = "hi" ∧
    (markStepAlt c2Session "m1").marks = [] ∧
    (markStepAlt c2Session "m1").listening = false ∧
    ¬ ((markStepLive c2Session "m1").marks = [] ∧
       (markStepLive c2Session "m1").accumulated_text = "") := by
  refine ⟨by decide, by decide, by decide, by decide, by decide⟩

/-- C2 (amended): in the live handler a known mark clears `speaking`, sets
`listening` and resets the interruption flag without removing the token or
clearing the utterance buffer, and the `"end call"` token sets the exit event;
in the unused alternative handler the token is removed and, when the list
empties while speaking, `speaking` and the utterance buffer are cleared but
`listening` is not set, with `"end call"` again setting the exit event. -/
theorem c2_mark_handling (st : Session) (name : String)
    (hmem : st.marks.contains name = true) :
    (markStepLive st name).speaking = false ∧
    (markStepLive st name).listening = true ∧
    (markStepLive st name).interruption_detected = false ∧
    (markStepLive st name).marks = st.marks ∧
    (markStepLive st name).accumulated_text = st.accumulated_text ∧
    (name = "end call" → (markStepLive st name).exiting = true) ∧
    (name ≠ "end call" → (markStepLive st name).exiting = st.exiting) ∧
    (markStepAlt st name).marks = st.marks.erase name ∧
    (markStepAlt st name).listening = st.listening ∧
    ((st.marks.erase name).isEmpty = true → st.speaking = true →
      (markStepAlt st name).speaking = false ∧ (markStepAlt st name).accumulated_text = "") ∧
    (name = "end call" → (markStepAlt st name).exiting = true) := by
  unfold markStepLive markStepAlt
  rw [hmem]
  simp only [if_true]
  refine ⟨?_, ?_, ?_, ?_, ?_, ?_, ?_, ?_, ?_, ?_, ?_⟩ <;>
    · intros
      split_ifs <;> simp_all

theorem c2_mark_handling_witness :
    (markStepLive c2Session "m1").listening = true ∧
    (markStepAlt c2Session "m1").accumulated_text = "" :=
  ⟨(c2_mark_handling c2Session "m1" (by decide)).2.1,
   ((c2_mark_handling c2Session "m1" (by decide)).2.2.2.2.2.2.2.2.2.1
      (by decide) (by decide)).2⟩

/-- C9 counterexample.  With no conversation state stored for call id
`"CA1"`, `update_state` is not a no-op: it first initializes a fresh
`ConversationState` for that call id and then applies the requested updates. -/
theorem c9_counterexample :
    getState ({} : MemoryB) "CA1" = none ∧
    getState (updateState {} "CA1" { state_index := some 3 }) "CA1" =
      some { state_index := 3 } ∧
    getState (updateState {} "CA1" { state_index := some 3 }) "CA1" ≠ none := by
  refine ⟨by decide, by decide, by decide⟩

/-- C9 (amended): for a call id with no stored `ConversationState`,
`set_question_data`, `add_followup_qa`, `set_response_type` and
`set_extracted_value` are warn-and-return no-ops, `should_advance_state` returns
false, and `buffer_response` writes only the response-buffer dict; `update_state`
alone is not a no-op — it initializes a fresh state for the call id and then
applies its keyword updates. -/
theorem c9_missing_call_id (m : MemoryB) (sid : String)
    (hmiss : getState m sid = none)
    (q e rt k v txt : String) (cats : List (String × String)) (mf : Nat) (u : StateUpdate) :
    setQuestionDataM m sid q e cats mf = m ∧
    addFollowupQaM m sid q e = (m, false) ∧
    setResponseTypeM m sid rt = m ∧
    setExtractedValueM m sid k v = m ∧
    shouldAdvanceStateM m sid = false ∧
    (bufferResponse m sid txt).conversation_states = m.conversation_states ∧
    getState (updateState m sid u) sid = some (applyUpdate {} u) := by
  refine ⟨?_, ?_, ?_, ?_, ?_, rfl, ?_⟩
  · rw [setQuestionDataM, hmiss]
  · rw [addFollowupQaM, hmiss]
  · rw [setResponseTypeM, hmiss]
  · rw [setExtractedValueM, hmiss]
  · rw [shouldAdvanceStateM, hmiss]
  · rw [updateState, hmiss]
    simp only [Option.isNone_none, if_true]
    have hinit : getState (initializeConversation m sid) sid = some {} := by
      unfold getState initializeConversation
      simp [putState_find]
    rw [hinit]
    unfold getState
    simp [putState_find]

theorem c9_missing_call_id_witness :
    setResponseTypeM {} "CA2" "years" = ({} : MemoryB) ∧
    getState (updateState {} "CA2" { attempts := some 1 }) "CA2" =
      some (applyUpdate {} { attempts := some 1 }) :=
  ⟨(c9_missing_call_id {} "CA2" (by decide) "q" "e" "years" "k" "v" "t" [] 2
      { attempts := some 1 }).2.2.1,
   (c9_missing_call_id {} "CA2" (by decide) "q" "e" "years" "k" "v" "t" [] 2
      { attempts := some 1 }).2.2.2.2.2.2⟩

/-- C8: whenever no JSON object can be extracted from the classifier reply
(no brace span, or the extracted span fails to parse), the analysis degrades to
label `default` with no extracted value and `needs_followup = false`; response
processing then leaves `extracted_values` untouched and stores response type
`"default"` (whenever it reaches the storing step, i.e. past the greeting state
with response categories present). -/
theorem c8_malformed_classifier_reply (parse : String → Option ParsedReply) (reply : String)
    (hfail : ∀ span, extractJsonSpan reply = some span → parse span = none)
    (st : ConversationState) (txt llmQ : String) (qd : QuestionData) :
    analysisOfReply parse reply = defaultAnalysis ∧
    (analysisOfReply parse reply).needs_followup = false ∧
    (analysisOfReply parse reply).extracted_value = none ∧
    (processResponseStep st txt (some qd) (analysisOfReply parse reply) llmQ).1.extracted_values
      = st.extracted_values ∧
    (st.state_index ≠ 0 → qd.response_categories ≠ [] →
      (processResponseStep st txt (some qd) (analysisOfReply parse reply) llmQ).1.response_type
        = "default") := by
  have hdef : analysisOfReply parse reply = defaultAnalysis := by
    unfold analysisOfReply
    cases hspan : extractJsonSpan reply with
    | none => rfl
    | some span => simp only [hfail span hspan]
  have hext : ∀ s : ConversationState,
      (storeAnalysis s defaultAnalysis).extracted_values = s.extracted_values :=
    fun s => storeAnalysis_extracted_none s defaultAnalysis rfl
  have hrt : ∀ s : ConversationState,
      (storeAnalysis s defaultAnalysis).response_type = "default" :=
    fun s => storeAnalysis_response_type s defaultAnalysis
  refine ⟨hdef, by rw [hdef]; rfl, by rw [hdef]; rfl, ?_, ?_⟩
  · rw [hdef]
    rcases processResponseStep_state_shape st txt (some qd) defaultAnalysis llmQ with
      ⟨h, _⟩ | ⟨h, _⟩ | h | ⟨f, h, _⟩ <;>
      rw [h] <;>
      simp [addFollowupQaState_extracted, hext, recordAnswer_extracted]
  · intro hstate hcats
    rw [hdef]
    rcases processResponseStep_state_shape st txt (some qd) defaultAnalysis llmQ with
      ⟨h, h0⟩ | ⟨h, hq⟩ | h | ⟨f, h, _⟩
    · exact absurd h0 hstate
    · rcases hq with hq | ⟨q, hq, hq2⟩
      · exact absurd hq (by simp)
      · rw [Option.some.injEq] at hq
        exact absurd (hq ▸ hq2) hcats
    · rw [h]; exact hrt _
    · rw [h, addFollowupQaState_response_type]; exact hrt _

theorem c8_malformed_classifier_reply_witness :
    analysisOfReply (fun _ => none) "the reply has no structure at all" = defaultAnalysis ∧
    (processResponseStep { state_index := 1, extracted_values := [("extracted_value", "9")] }
        "some answer" (some { response_categories := [("years", "a number")] })
        (analysisOfReply (fun _ => none) "the reply has no structure at all")
        "generated").1.extracted_values = [("extracted_value", "9")] ∧
    (processResponseStep { state_index := 1, extracted_values := [("extracted_value", "9")] }
        "some answer" (some { response_categories := [("years", "a number")] })
        (analysisOfReply (fun _ => none) "the reply has no structure at all")
        "generated").1.response_type = "default" := by
  have h := c8_malformed_classifier_reply (fun _ => none) "the reply has no structure at all"
    (fun _ _ => rfl) { state_index := 1, extracted_values := [("extracted_value", "9")] }
    "some answer" "generated" { response_categories := [("years", "a number")] }
  exact ⟨h.1, h.2.2.2.1, h.2.2.2.2 (by decide) (by decide)⟩

theorem overlapSizeAux_spec (cur new : List String) (k : Nat) :
    (overlapSizeAux cur new k = 0 ∨
      overlapMatchAt cur new (overlapSizeAux cur new k) = true) ∧
    (∀ j, overlapSizeAux cur new k < j → j ≤ k → overlapMatchAt cur new j = false) := by
  induction k with
  | zero =>
    refine ⟨Or.inl rfl, ?_⟩
    intro j h1 h2
    omega
  | succ n ih =>
    by_cases h : overlapMatchAt cur new (n + 1) = true
    · rw [overlapSizeAux, if_pos h]
      refine ⟨Or.inr h, ?_⟩
      intro j h1 h2
      omega
    · rw [overlapSizeAux, if_neg h]
      refine ⟨ih.1, ?_⟩
      intro j h1 h2
      rcases Nat.lt_or_ge j (n + 1) with hj | hj
      · exact ih.2 j h1 (by omega)
      · have : j = n + 1 := by omega
        subst this
        simpa using h

/-- The concrete merge examples of spec §8. -/
theorem c7_example_overlap :
    add_text_with_overlap_check "I have five" "five years experience" =
      ("I have five years experience", "years experience") := by
  decide

/-- C7: overlap-aware merging.  (a) A fragment already contained
(case-insensitively) in the stripped buffer leaves the buffer unchanged and adds
nothing.  (b) Otherwise the overlap found is maximal among the sizes up to
`min(len(buffer words), len(fragment words), 10)`, and exactly the fragment
minus that overlap is appended (followed by `_clean_text` normalization); the
spec's two examples evaluate as stated. -/
theorem c7_overlap_merge :
    (∀ acc t, pyStrip acc ≠ "" → t ≠ "" →
       strContains (lowerStr (pyStrip acc)) (lowerStr t) = true →
       add_text_with_overlap_check acc t = (acc, "")) ∧
    (∀ cur new k,
       (overlapSizeAux cur new k = 0 ∨
         overlapMatchAt cur new (overlapSizeAux cur new k) = true) ∧
       (∀ j, overlapSizeAux cur new k < j → j ≤ k → overlapMatchAt cur new j = false)) ∧
    (∀ acc t, pyStrip acc ≠ "" → t ≠ "" →
       strContains (lowerStr (pyStrip acc)) (lowerStr t) = false →
       (0 < overlapSizeAux (pyWords (pyStrip acc)) (pyWords t)
            (min (min (pyWords (pyStrip acc)).length (pyWords t).length) 10) →
         (add_text_with_overlap_check acc t).2 =
           joinSpace ((pyWords t).drop (overlapSizeAux (pyWords (pyStrip acc)) (pyWords t)
             (min (min (pyWords (pyStrip acc)).length (pyWords t).length) 10)))) ∧
       (overlapSizeAux (pyWords (pyStrip acc)) (pyWords t)
            (min (min (pyWords (pyStrip acc)).length (pyWords t).length) 10) = 0 →
         (add_text_with_overlap_check acc t).2 = t) ∧
       ((add_text_with_overlap_check acc t).2 = "" →
         (add_text_with_overlap_check acc t).1 = acc) ∧
       ((add_text_with_overlap_check acc t).2 ≠ "" →
         (add_text_with_overlap_check acc t).1 =
           cleanText (acc ++ " " ++ (add_text_with_overlap_check acc t).2))) ∧
    add_text_with_overlap_check "I have five" "five years experience" =
      ("I have five years experience", "years experience") ∧
    add_text_with_overlap_check "how many years" "many years" = ("how many years", "") := by
  refine ⟨?_, fun cur new k => overlapSizeAux_spec cur new k, ?_, by decide, by decide⟩
  · intro acc t hacc ht hcont
    unfold add_text_with_overlap_check
    rw [if_neg ht, if_neg hacc]
    dsimp only
    rw [hcont]
    simp
  · intro acc t hacc ht hnc
    unfold add_text_with_overlap_check
    rw [if_neg ht, if_neg hacc]
    dsimp only
    rw [hnc]
    simp only [Bool.false_eq_true, if_false]
    split
    · rename_i hpos
      split
      · rename_i hadd
        exact ⟨fun _ => rfl, fun h0 => absurd h0 (by omega), fun h => absurd h (by simpa using hadd),
          fun _ => rfl⟩
      · rename_i hadd
        have hadd' : joinSpace ((pyWords t).drop (overlapSizeAux (pyWords (pyStrip acc))
            (pyWords t) (min (min (pyWords (pyStrip acc)).length (pyWords t).length) 10))) = "" := by
          simpa using hadd
        exact ⟨fun _ => hadd'.symm, fun h0 => absurd h0 (by omega), fun _ => rfl,
          fun h => absurd rfl h⟩
    · rename_i hpos
      have h0 : overlapSizeAux (pyWords (pyStrip acc)) (pyWords t)
          (min (min (pyWords (pyStrip acc)).length (pyWords t).length) 10) = 0 := by omega
      exact ⟨fun h => absurd h (by omega), fun _ => rfl, fun h => absurd h ht, fun _ => rfl⟩

theorem c7_overlap_merge_witness :
    add_text_with_overlap_check "how many years" "many years" = ("how many years", "") ∧
    (add_text_with_overlap_check "I have five" "five years experience").2 =
      joinSpace ((pyWords "five years experience").drop
        (overlapSizeAux (pyWords (pyStrip "I have five")) (pyWords "five years experience")
          (min (min (pyWords (pyStrip "I have five")).length
            (pyWords "five years experience").length) 10))) :=
  ⟨c7_overlap_merge.1 "how many years" "many years" (by decide) (by decide) (by decide),
   (c7_overlap_merge.2.2.1 "I have five" "five years experience" (by decide) (by decide)
      (by decide)).1 (by decide)⟩

theorem setQuestionDataState_attempts (st : ConversationState) (q e : String)
    (cats : List (String × String)) (mf : Nat) :
    (setQuestionDataState st q e cats mf).followup_attempts = st.followup_attempts := by
  unfold setQuestionDataState
  split <;> split <;> rfl

theorem setQuestionDataState_pairs (st : ConversationState) (q e : String)
    (cats : List (String × String)) (mf : Nat) :
    (setQuestionDataState st q e cats mf).followup_qa_pairs = st.followup_qa_pairs := by
  unfold setQuestionDataState
  split <;> split <;> rfl

theorem setQuestionDataState_max_pos (st : ConversationState) (q e : String)
    (cats : List (String × String)) (mf : Nat) (h : 1 ≤ st.max_followup_attempts) :
    1 ≤ (setQuestionDataState st q e cats mf).max_followup_attempts := by
  unfold setQuestionDataState
  split <;> split <;> dsimp only <;> omega

/-- The conversation-state transitions the flow engine performs during a call:
initialization (`MemoryB.initialize_conversation`), response processing
(`ConversationManager.process_response` with arbitrary classifier output and
question data), and state advancement (`ConversationManager.advance_state`). -/
inductive ReachableState : ConversationState → Prop where
  | init : ReachableState {}
  | process (st : ConversationState) (txt : String) (qd : Option QuestionData)
      (a : Analysis) (llmQ : String) : ReachableState st →
      ReachableState (processResponseStep st txt qd a llmQ).1
  | advance (st : ConversationState) (qd : QuestionData) : ReachableState st →
      ReachableState (cmAdvanceState st qd)

theorem reachable_invariant (st : ConversationState) (h : ReachableState st) :
    st.followup_attempts ≤ st.max_followup_attempts ∧
    st.followup_qa_pairs.length = st.followup_attempts ∧
    1 ≤ st.max_followup_attempts := by
  induction h with
  | init => exact ⟨by decide, rfl, by decide⟩
  | process st txt qd a llmQ _ ih =>
    rcases processResponseStep_state_shape st txt qd a llmQ with
      ⟨hs, _⟩ | ⟨hs, _⟩ | hs | ⟨f, hs, hg⟩ <;> rw [hs]
    · exact ih
    · exact ⟨by rw [recordAnswer_attempts, recordAnswer_max]; exact ih.1,
        by rw [recordAnswer_pairs_length, recordAnswer_attempts]; exact ih.2.1,
        by rw [recordAnswer_max]; exact ih.2.2⟩
    · exact ⟨by rw [storeAnalysis_attempts, storeAnalysis_max, recordAnswer_attempts,
          recordAnswer_max]; exact ih.1,
        by rw [storeAnalysis_pairs, storeAnalysis_attempts, recordAnswer_pairs_length,
          recordAnswer_attempts]; exact ih.2.1,
        by rw [storeAnalysis_max, recordAnswer_max]; exact ih.2.2⟩
    · have hatt : (storeAnalysis (recordAnswer st txt) a).followup_attempts =
          st.followup_attempts := by
        rw [storeAnalysis_attempts, recordAnswer_attempts]
      have hmax : (storeAnalysis (recordAnswer st txt) a).max_followup_attempts =
          st.max_followup_attempts := by
        rw [storeAnalysis_max, recordAnswer_max]
      have hlen : (storeAnalysis (recordAnswer st txt) a).followup_qa_pairs.length =
          st.followup_qa_pairs.length := by
        rw [storeAnalysis_pairs, recordAnswer_pairs_length]
      rcases hg with hg | hg
      · -- first-follow-up shortcut: the pending pair list is empty, so the
        -- attempt counter is 0 by the length coupling, and 1 ≤ max applies
        have h0 : st.followup_attempts = 0 := by
          rw [← ih.2.1, ← hlen, hg]
          rfl
        refine ⟨?_, ?_, ?_⟩
        · rw [addFollowupQaState_attempts, addFollowupQaState_max, hatt, hmax, h0]
          exact ih.2.2
        · rw [addFollowupQaState_pairs_length, addFollowupQaState_attempts, hlen, hatt,
            ih.2.1]
        · rw [addFollowupQaState_max, hmax]
          exact ih.2.2
      · -- gated follow-up: can_ask_followup held, so the counter was below max
        have hlt : st.followup_attempts < st.max_followup_attempts := by
          have := hg
          unfold canAskFollowup at this
          rw [hatt, hmax] at this
          simpa using this
        refine ⟨?_, ?_, ?_⟩
        · rw [addFollowupQaState_attempts, addFollowupQaState_max, hatt, hmax]
          omega
        · rw [addFollowupQaState_pairs_length, addFollowupQaState_attempts, hlen, hatt,
            ih.2.1]
        · rw [addFollowupQaState_max, hmax]
          exact ih.2.2
  | advance st qd _ ih =>
    unfold cmAdvanceState
    refine ⟨?_, ?_, ?_⟩
    · rw [setQuestionDataState_attempts]
      exact Nat.zero_le _
    · rw [setQuestionDataState_pairs, setQuestionDataState_attempts]
      rfl
    · exact setQuestionDataState_max_pos _ _ _ _ _ (by simpa using ih.2.2)

/-- C6 counterexample.  `MemoryB.add_followup_qa` performs no ceiling check:
three raw follow-up recordings on a fresh state (whose default ceiling is 2)
drive `followup_attempts` to 3 > 2, so the invariant does not survive every
MemoryB operation. -/
theorem c6_counterexample :
    (addFollowupQaState (addFollowupQaState (addFollowupQaState {} "f" "") "f" "")
        "f" "").followup_attempts = 3 ∧
    (addFollowupQaState (addFollowupQaState (addFollowupQaState {} "f" "") "f" "")
        "f" "").max_followup_attempts = 2 ∧
    ¬ (addFollowupQaState (addFollowupQaState (addFollowupQaState {} "f" "") "f" "")
        "f" "").followup_attempts ≤
      (addFollowupQaState (addFollowupQaState (addFollowupQaState {} "f" "") "f" "")
        "f" "").max_followup_attempts := by
  refine ⟨by decide, by decide, by decide⟩

/-- C6 (amended): `followup_attempts ≤ max_followup_attempts` holds for every
state reachable through the flow engine's own operations — initialization,
response processing (where `add_followup_qa` only runs on the first-follow-up
shortcut or behind the `can_ask_followup` gate) and state advancement
(`set_question_data` ignores a supplied `max_followups` of 0 by Python
truthiness, so the ceiling never drops below 1).  Standalone `add_followup_qa`
calls are unchecked and break the invariant (see the counterexample). -/
theorem c6_followup_ceiling (st : ConversationState) (h : ReachableState st) :
    st.followup_attempts ≤ st.max_followup_attempts :=
  (reachable_invariant st h).1

theorem c6_followup_ceiling_witness :
    (processResponseStep (cmAdvanceState {} { question := "Q1" }) "five years"
        (some { response_categories := [("years", "count")] })
        { response_type := "irrelevant", needs_followup := true } "ask again").1.followup_attempts ≤
      (processResponseStep (cmAdvanceState {} { question := "Q1" }) "five years"
        (some { response_categories := [("years", "count")] })
        { response_type := "irrelevant", needs_followup := true } "ask again").1.max_followup_attempts :=
  c6_followup_ceiling _
    (ReachableState.process _ _ _ _ _ (ReachableState.advance _ _ ReachableState.init))

theorem shouldAdvanceState_iff (s : ConversationState) :
    shouldAdvanceState s = true ↔
      ((s.response_type ≠ "" ∧ s.response_type ∉ ["irrelevant", "default"]) ∨
        (s.state_index = 5 ∧
          (assocLookup s.extracted_values "notice_period_threshold").isSome = true ∧
          (s.response_type = "immediate" ∨ s.response_type = "short_notice")) ∨
        s.max_followup_attempts ≤ s.followup_attempts) := by
  unfold shouldAdvanceState
  split_ifs with h1 h2
  · exact iff_of_true rfl (Or.inl h1)
  · exact iff_of_true rfl (Or.inr (Or.inl ⟨h2.1, by simpa using h2.2.1, h2.2.2⟩))
  · rw [decide_eq_true_eq]
    constructor
    · intro h
      exact Or.inr (Or.inr h)
    · rintro (h | h | h)
      · exact absurd h h1
      · exact absurd ⟨h.1, by simpa using h.2.1, h.2.2⟩ h2
      · exact h

theorem followupTemplate_store_record (st : ConversationState) (txt : String)
    (a : Analysis) (qd : QuestionData) (rt : String) :
    followupTemplate (storeAnalysis (recordAnswer st txt) a) qd rt =
      followupTemplate st qd rt := by
  unfold followupTemplate
  rw [storeAnalysis_pairs]
  dsimp only
  have hiff : ((recordAnswer st txt).followup_qa_pairs ≠ [] ∧
      (rt = "irrelevant" ∨ rt = "default")) ↔
      (st.followup_qa_pairs ≠ [] ∧ (rt = "irrelevant" ∨ rt = "default")) := by
    rw [ne_eq, ne_eq, recordAnswer_pairs_nil_iff]
  by_cases hcond : st.followup_qa_pairs ≠ [] ∧ (rt = "irrelevant" ∨ rt = "default")
  · rw [if_pos (hiff.mpr hcond), if_pos hcond, recordAnswer_pairs_getLast_fst]
  · rw [if_neg (fun hx => hcond (hiff.mp hx)), if_neg hcond]

/-- Claim C4's advance condition, stated from the spec's words: advance iff the
label is not `irrelevant`/`default` and has no follow-up template, or the
follow-up attempt counter has reached the ceiling. -/
def c4SpecAdvanceCondition (responseType : String) (instr : List (String × String))
    (attempts maxAttempts : Nat) : Prop :=
  (responseType ∉ ["irrelevant", "default"] ∧ instrLookup instr responseType = "") ∨
    maxAttempts ≤ attempts

/-- The advance condition `process_response` actually implements (C4 amended):
no first-follow-up shortcut fires, and the label is valid, or the state-5 notice
special case applies, or the ceiling is reached, or no follow-up is needed, or
the effective template (label's, else `default`'s, else the repeated previous
follow-up question) is empty; greeting state 0 always advances, and missing
response categories fail instead of advancing. -/
def c4AdvanceCondition (st : ConversationState) (qd : QuestionData) (a : Analysis) : Prop :=
  st.state_index = 0 ∨
    (qd.response_categories ≠ [] ∧
      ¬ (instrLookup qd.follow_up_instructions a.response_type ≠ "" ∧
          st.followup_qa_pairs = []) ∧
      ((a.response_type ≠ "" ∧ a.response_type ∉ ["irrelevant", "default"]) ∨
        (st.state_index = 5 ∧
          (assocLookup st.extracted_values "notice_period_threshold").isSome = true ∧
          (a.response_type = "immediate" ∨ a.response_type = "short_notice")) ∨
        st.max_followup_attempts ≤ st.followup_attempts ∨
        a.needs_followup = false ∨
        followupTemplate st qd a.response_type = ""))

/-- Concrete state for the C4 counterexample. -/
def c4State : ConversationState := { state_index := 1 }

/-- A question-5-free state after two irrelevant follow-up rounds against a
ceiling of 2: the claim's attempt-ceiling scenario. -/
def c4CeilingState : ConversationState :=
  { state_index := 1, followup_attempts := 2, max_followup_attempts := 2,
    response_type := "irrelevant", followup_qa_pairs := [("f1", "a1"), ("f2", "a2")] }

def c4Qd : QuestionData := { response_categories := [("years", "a number of years")] }

/-- C4 counterexample.  With label `irrelevant`, no follow-up templates,
`needs_followup = false` and zero attempts against a ceiling of 2, the engine
advances immediately, while the claim's condition says it must not (the label is
in `{irrelevant, default}` and the ceiling is not reached). -/
theorem c4_counterexample :
    (processResponseStep c4State "tell me a joke" (some c4Qd)
        { response_type := "irrelevant", extracted_value := none, needs_followup := false }
        "generated").2 = POutcome.advance ∧
    ¬ c4SpecAdvanceCondition "irrelevant" c4Qd.follow_up_instructions
        c4State.followup_attempts c4State.max_followup_attempts := by
  refine ⟨by decide, ?_⟩
  unfold c4SpecAdvanceCondition
  decide

/-- C4 (amended): `process_response` advances exactly under
`c4AdvanceCondition`; `should_advance_state` returns true whenever the attempt
counter has reached the ceiling; and in particular, with the pair-list/counter
coupling and a positive ceiling (e.g. `max_followups = 2` after two irrelevant
follow-up rounds), the third turn advances regardless of classifier output. -/
theorem c4_advance_policy :
    (∀ st txt qd a llmQ,
      (processResponseStep st txt (some qd) a llmQ).2 = POutcome.advance ↔
        c4AdvanceCondition st qd a) ∧
    (∀ st : ConversationState, st.max_followup_attempts ≤ st.followup_attempts →
      shouldAdvanceState st = true) ∧
    (∀ st txt qd a llmQ, qd.response_categories ≠ [] →
      st.followup_qa_pairs.length = st.followup_attempts →
      st.max_followup_attempts ≤ st.followup_attempts →
      1 ≤ st.max_followup_attempts →
      (processResponseStep st txt (some qd) a llmQ).2 = POutcome.advance) := by
  have hmain : ∀ st txt qd a llmQ,
      (processResponseStep st txt (some qd) a llmQ).2 = POutcome.advance ↔
        c4AdvanceCondition st qd a := by
    intro st txt qd a llmQ
    have hpairs : (storeAnalysis (recordAnswer st txt) a).followup_qa_pairs = [] ↔
        st.followup_qa_pairs = [] := by
      rw [storeAnalysis_pairs]
      exact recordAnswer_pairs_nil_iff st txt
    have hS : shouldAdvanceState (storeAnalysis (recordAnswer st txt) a) = true ↔
        ((a.response_type ≠ "" ∧ a.response_type ∉ ["irrelevant", "default"]) ∨
          (st.state_index = 5 ∧
            (assocLookup st.extracted_values "notice_period_threshold").isSome = true ∧
            (a.response_type = "immediate" ∨ a.response_type = "short_notice")) ∨
          st.max_followup_attempts ≤ st.followup_attempts) := by
      rw [shouldAdvanceState_iff, storeAnalysis_response_type, storeAnalysis_state_index,
        recordAnswer_state_index, storeAnalysis_notice_lookup, recordAnswer_extracted,
        storeAnalysis_attempts, recordAnswer_attempts, storeAnalysis_max, recordAnswer_max]
    have hC : canAskFollowup (storeAnalysis (recordAnswer st txt) a) = true ↔
        st.followup_attempts < st.max_followup_attempts := by
      unfold canAskFollowup
      rw [storeAnalysis_attempts, recordAnswer_attempts, storeAnalysis_max, recordAnswer_max]
      simp
    have hT : followupTemplate (storeAnalysis (recordAnswer st txt) a) qd a.response_type =
        followupTemplate st qd a.response_type :=
      followupTemplate_store_record st txt a qd a.response_type
    unfold processResponseStep c4AdvanceCondition
    split
    · rename_i h0
      exact iff_of_true rfl (Or.inl h0)
    · rename_i h0
      dsimp only
      split
      · rename_i hc
        simp [hc, h0]
      · rename_i hc
        split
        · rename_i hsc
          refine iff_of_false (by simp) ?_
          rintro (h | ⟨_, hnsc, _⟩)
          · exact h0 h
          · exact hnsc ⟨hsc.1, hpairs.mp hsc.2⟩
        · rename_i hsc
          have hnsc : ¬ (instrLookup qd.follow_up_instructions a.response_type ≠ "" ∧
              st.followup_qa_pairs = []) := fun hx => hsc ⟨hx.1, hpairs.mpr hx.2⟩
          split
          · rename_i hsh
            exact iff_of_true rfl (Or.inr ⟨hc, hnsc, by
              rcases hS.mp hsh with h | h | h
              · exact Or.inl h
              · exact Or.inr (Or.inl h)
              · exact Or.inr (Or.inr (Or.inl h))⟩)
          · rename_i hsh
            split
            · rename_i h45
              refine iff_of_true rfl (Or.inr ⟨hc, hnsc, ?_⟩)
              rcases h45 with h4 | h5
              · have : ¬ st.followup_attempts < st.max_followup_attempts := fun hlt =>
                  h4 (hC.mpr hlt)
                exact Or.inr (Or.inr (Or.inl (by omega)))
              · exact Or.inr (Or.inr (Or.inr (Or.inl (by simpa using h5))))
            · rename_i h45
              have hcan : st.followup_attempts < st.max_followup_attempts := by
                by_contra hge
                exact h45 (Or.inl (fun hx => hge (hC.mp hx)))
              have hneeds : a.needs_followup = true := by
                by_contra hne
                exact h45 (Or.inr (by simpa using hne))
              split
              · rename_i ht0
                exact iff_of_true rfl (Or.inr ⟨hc, hnsc,
                  Or.inr (Or.inr (Or.inr (Or.inr (hT ▸ ht0))))⟩)
              · rename_i ht0
                refine iff_of_false (by simp) ?_
                rintro (h | ⟨_, _, hD⟩)
                · exact h0 h
                · rcases hD with h | h | h | h | h
                  · exact hsh (hS.mpr (Or.inl h))
                  · exact hsh (hS.mpr (Or.inr (Or.inl h)))
                  · omega
                  · rw [hneeds] at h
                    exact absurd h (by simp)
                  · exact ht0 (hT.symm ▸ h)
  refine ⟨hmain, ?_, ?_⟩
  · intro st h
    exact (shouldAdvanceState_iff st).mpr (Or.inr (Or.inr h))
  · intro st txt qd a llmQ hcats hlen hceil hpos
    rw [hmain]
    by_cases h0 : st.state_index = 0
    · exact Or.inl h0
    · have hne : st.followup_qa_pairs ≠ [] := by
        intro hnil
        rw [hnil] at hlen
        simp at hlen
        omega
      exact Or.inr ⟨hcats, fun hx => hne hx.2, Or.inr (Or.inr (Or.inl hceil))⟩

theorem c4_advance_policy_witness :
    shouldAdvanceState c4CeilingState = true ∧
    (processResponseStep c4CeilingState "still not an answer" (some c4Qd)
      { response_type := "irrelevant", needs_followup := true } "llm question").2 =
      POutcome.advance :=
  ⟨c4_advance_policy.2.1 _ (by decide),
   c4_advance_policy.2.2 _ "still not an answer" _ _ "llm question"
     (by decide) (by decide) (by decide) (by decide)⟩

theorem transcriptStep_no_replay (st : Session) (m : DgMsg) :
    (transcriptStep st m).1.replay_count = st.replay_count ∧
    (transcriptStep st m).1.interruption_detected = st.interruption_detected ∧
    ∀ n, RAction.streamAudioBuffer n ∉ (transcriptStep st m).2 := by
  unfold transcriptStep mergeAccumulated
  dsimp only
  split_ifs <;> simp

/-- The session state used to trigger the claimed barge-in: the AI is speaking,
hence the listening flag is clear, a replayable buffer is stored, and a
non-empty transcript arrives. -/
def c1Session : Session :=
  { speaking := true, listening := false, accumulated_text := "partial answer",
    replay_count := 0, current_audio_buffer := some 5000 }

def c1Message : DgMsg := { transcript := "hello there" }

/-- C1 (code bug).  While `speaking` is set, a dispatch of the receive loop
over any transcript message leaves the replay counter and the interruption flag
unchanged and streams no replay audio: the not-listening guard
(websocket_manager.py line 527) consumes every transcript, and the barge-in body
(lines 604-626) runs only when `message_json` is `None`, so its
`message_json is not None` test never passes.  The replay machinery itself obeys
the claimed replay bound: with the counter at 3 `_replay_audio` does nothing and
returns `False` without failing; below 3, with a buffer of at least 1000 bytes,
it increments the counter and streams the stored buffer. -/
theorem c1_bargein_unreachable :
    (∀ (st : Session) (m : DgMsg) (newMark : String), st.speaking = true →
      (receiveDispatch st (some m) newMark).1.replay_count = st.replay_count ∧
      (receiveDispatch st (some m) newMark).1.interruption_detected =
        st.interruption_detected ∧
      ∀ n, RAction.streamAudioBuffer n ∉ (receiveDispatch st (some m) newMark).2.1) ∧
    (∀ (st : Session) (newMark : String), 3 ≤ st.replay_count →
      replayAudio st newMark = (st, [], false)) ∧
    (∀ (st : Session) (newMark : String) (sz : Nat), st.current_audio_buffer = some sz →
      1000 ≤ sz → st.replay_count < 3 →
      (replayAudio st newMark).1.replay_count = st.replay_count + 1 ∧
      (replayAudio st newMark).2.2 = true ∧
      RAction.streamAudioBuffer sz ∈ (replayAudio st newMark).2.1) := by
  refine ⟨?_, ?_, ?_⟩
  · intro st m newMark _
    unfold receiveDispatch
    dsimp only
    split
    · exact ⟨rfl, rfl, by simp⟩
    · exact transcriptStep_no_replay st m
  · intro st newMark h3
    unfold replayAudio
    dsimp only
    split_ifs <;> rfl
  · intro st newMark sz hbuf hsz hcount
    unfold replayAudio
    rw [hbuf]
    have h0 : ¬ ((some sz : Option Nat) = none ∨ (some sz : Option Nat) = some 0) := by
      rintro (h | h)
      · exact absurd h (by simp)
      · rw [Option.some.injEq] at h
        omega
    rw [if_neg h0]
    simp only [Option.getD_some]
    rw [if_neg (by omega), if_neg (by omega)]
    exact ⟨rfl, rfl, by simp⟩

theorem c1_bargein_unreachable_witness :
    (receiveDispatch c1Session (some c1Message) "mk1").1.replay_count = 0 ∧
    (∀ n, RAction.streamAudioBuffer n ∉ (receiveDispatch c1Session (some c1Message) "mk1").2.1) ∧
    replayAudio { c1Session with replay_count := 3 } "mk1" =
      ({ c1Session with replay_count := 3 }, [], false) ∧
    (replayAudio c1Session "mk1").1.replay_count = 1 :=
  ⟨(c1_bargein_unreachable.1 c1Session c1Message "mk1" rfl).1,
   (c1_bargein_unreachable.1 c1Session c1Message "mk1" rfl).2.2,
   c1_bargein_unreachable.2.1 { c1Session with replay_count := 3 } "mk1" (by decide),
   (c1_bargein_unreachable.2.2 c1Session "mk1" 5000 rfl (by decide) (by decide)).1⟩

end AICall
